import Mathlib

/-
Verification of the MCP_TRAVEL tool-adapter layer.

Shallow embedding of the tool handlers of src/mcp_http_server.py and
src/mcp_server.py.  Provider collaborators (the functions imported from
services/*) are opaque in the repository, so they are modelled as oracle
fields of an `Env` record: each oracle either returns structured data
(`Except.ok`) or raises (`Except.error msg`, modelling a Python exception
carrying message `msg`).  Every handler is translated into a pure function
returning its outcome together with the list of provider calls it made,
so that call-counting properties (zero calls before validation failure,
exactly one call per invocation, no retries) are provable.

Python dictionaries returned by collaborators are modelled as records with
`Option String` fields (`none` = key absent); `dict.get(k, default)`
becomes `Option.getD`.  Python truthiness, slicing and `str.title` are
modelled by the `py*` helpers below, faithful to CPython semantics on the
value shapes the code passes.
-/

namespace MCPTravel

/-- A Python value as it appears in a tool-call argument mapping
(the shapes used by the embedded servers: strings, ints, None). -/
inductive Val where
  | str (s : String)
  | int (n : Int)
  | list (xs : List String)
  | vnone
deriving DecidableEq, Repr

/-- Python truthiness of a `str | None` value: `None` and `""` are falsy. -/
def pyTruthyOptStr : Option String → Bool
  | none => false
  | some s => !s.isEmpty

/-- Python list slice `l[:n]` for an `int` bound `n`:
nonnegative `n` takes the first `n` elements, negative `n` drops the
last `|n|` elements (clamped at the empty list). -/
def pySliceTo (n : Int) (l : List α) : List α :=
  if n < 0 then l.take (l.length - n.natAbs) else l.take n.toNat

/-- Python string slice `s[:n]` (by code points, as CPython counts). -/
def pyStrTake (s : String) (n : Nat) : String :=
  String.mk (s.data.take n)

/-- Helper for `pyTitle`: the boolean records whether the previous
character was alphabetic. -/
def pyTitleAux : Bool → List Char → List Char
  | _, [] => []
  | prevAlpha, c :: cs =>
    let c2 := if c.isAlpha then (if prevAlpha then c.toLower else c.toUpper) else c
    c2 :: pyTitleAux c.isAlpha cs

/-- Python `str.title()` (ASCII behaviour): the first alphabetic character
of every alphabetic run is uppercased, the rest lowercased. -/
def pyTitle (s : String) : String :=
  String.mk (pyTitleAux false s.data)

/-- Boolean contiguous-sublist test, used to model Python `pat in s`. -/
def listInfixB [DecidableEq α] (p : List α) : List α → Bool
  | [] => p.isEmpty
  | a :: s => List.isPrefixOf p (a :: s) || listInfixB p s

/-- Python `pat in s` on strings. -/
def pyInStr (pat s : String) : Bool :=
  listInfixB pat.data s.data

/-- Python `str.lower()` (ASCII behaviour), mapping each character. -/
def pyLower (s : String) : String :=
  String.mk (s.data.map Char.toLower)

/-- Number of (possibly overlapping) occurrences of `p` in `s`;
used only to count per-day detail markers in formatted output. -/
def countOcc [DecidableEq α] (p : List α) : List α → Nat
  | [] => 0
  | a :: s => (if List.isPrefixOf p (a :: s) then 1 else 0) + countOcc p s

/-- One day of the weather forecast, as read by mcp_http_server.py
(`day.get("date", ...)` etc.; `none` models an absent key). -/
structure ForecastDay where
  date : Option String
  temperature_high : Option String
  temperature_low : Option String
  description : Option String
deriving DecidableEq, Repr

/-- One place record, as read by `discover_places` (both HTTP servers;
`types` is read only by the minimal server's variant). -/
structure Place where
  name : Option String
  rating : Option String
  address : Option String
  description : Option String
  types : List String
deriving DecidableEq, Repr

/-- One restaurant record, as read by `find_restaurants`. -/
structure Restaurant where
  name : Option String
  rating : Option String
  price_level : Option String
  cuisine : Option String
  address : Option String
deriving DecidableEq, Repr

/-- One flight record, as read by `search_flight_options`. -/
structure Flight where
  airline : Option String
  price : Option String
  departure_time : Option String
  arrival_time : Option String
  duration : Option String
  stops : Option Int
deriving DecidableEq, Repr

/-- A visa-requirements record, as read by `check_travel_requirements`
in mcp_http_server.py.  `required` models the truthiness of the
`"required"` entry; `vtype` embeds the `"type"` key. -/
structure VisaInfo where
  required : Bool
  vtype : Option String
  processing_time : Option String
  fee : Option String
  duration : Option String
deriving DecidableEq, Repr

/-- A safety-advisory record, as read by `check_travel_requirements`. -/
structure SafetyInfo where
  level : Option String
  advisories : List String
  last_updated : Option String
deriving DecidableEq, Repr

/-- One outbound call to a provider collaborator, recording the
collaborator identity and the exact argument shape of the call site.
Constructors suffixed `V` are the stdio server call sites of
src/mcp_server.py (which forward raw argument-mapping values); the
others are the call sites of src/mcp_http_server.py.
`searchFlights` records the keyword-argument list the call site passes,
since the documented naming-mismatch bug class lives exactly there. -/
inductive ProviderCall where
  | getForecast (location : String)
  | searchPlacesQ (query : String)
  | searchPlacesLc (location category : String)
  | searchRestaurantsH (city : String) (cuisine_types : List String)
      (price_range : Option String) (dietary_restrictions : List String)
  | checkVisa (origin_country destination_country : String)
  | safetyAdvisories (destination_country : String)
  | searchFlights (kwargs : List (String × Val))
  | getForecastV (location : Val)
  | searchPlacesV (location category : Val)
  | searchRestaurantsV (location cuisine price_range : Val)
  | checkVisaV (origin_country destination_country : Val)
  | safetyAdvisoriesV (destination_country : Val)
deriving DecidableEq, Repr

/-- Normalized failure envelope of a tool invocation
(the `ErrorData` codes of the MCP protocol, by class). -/
inductive Failure where
  | invalidRequest (message : String)
  | invalidParams (message : String)
  | internalError (message : String)
deriving DecidableEq, Repr

/-- The structured payload a stdio-server handler wraps in `_json_content`
(src/mcp_server.py `_json_content` serialises exactly this value;
serialisation itself is transport plumbing and is not modelled). -/
inductive PayloadV where
  | jforecast (forecast : List ForecastDay)
  | jplaces (places : List Place)
  | jrestaurants (restaurants : List Restaurant)
  | jtravel (visa_requirements : Option VisaInfo) (safety_advisories : Option SafetyInfo)
deriving DecidableEq, Repr

/-- The provider collaborators, one oracle per call-site shape.
An `Except.error e` result models the collaborator raising an exception
whose string rendering is `e`.  The `*_v` fields are the stdio server's
call shapes (raw `Val` arguments); the visa/safety oracles return
`Option` records, `none` modelling a falsy (empty) dictionary. -/
structure Env where
  get_forecast : String → Except String (List ForecastDay)
  search_places_q : String → Except String (List Place)
  search_places_lc : String → String → Except String (List Place)
  search_restaurants_h : String → List String → Option String → List String →
      Except String (List Restaurant)
  check_visa_requirements : String → String → Except String (Option VisaInfo)
  get_safety_advisories : String → Except String (Option SafetyInfo)
  search_flights : List (String × Val) → Except String (List Flight)
  get_forecast_v : Val → Except String (List ForecastDay)
  search_places_v : Val → Val → Except String (List Place)
  search_restaurants_v : Val → Val → Val → Except String (List Restaurant)
  check_visa_requirements_v : Val → Val → Except String (Option VisaInfo)
  get_safety_advisories_v : Val → Except String (Option SafetyInfo)

/-- Outcome of one tool invocation on the HTTP server: the normalized
result (formatted text or a `Failure`), with the provider calls made. -/
abbrev ToolOut := Except Failure String × List ProviderCall

/-- Outcome of one stdio handler body (before the framework boundary):
a structured payload or an uncaught Python exception, with the calls made. -/
abbrev HandlerOut := Except String PayloadV × List ProviderCall

/-- The single `try ... except Exception as e: raise McpError(ErrorData(
code=INTERNAL_ERROR, message=f"<pfx>: {str(e)}"))` boundary wrapped
around every mcp_http_server.py handler body. -/
def tryWrap (pfx : String) (body : Except String String × List ProviderCall) : ToolOut :=
  match body with
  | (.ok s, t) => (.ok s, t)
  | (.error e, t) => (.error (.internalError (pfx ++ ": " ++ e)), t)

/-! ### HTTP server handlers (src/mcp_http_server.py) -/

/-- Header line of the `get_weather` response (mcp_http_server.py line 292). -/
def weatherHeader (location : String) : String :=
  s!"🌤️ **Weather Forecast for {location}**\n\n"

/-- The per-day text the `get_weather` loop appends for one forecast entry
(mcp_http_server.py lines 294-310): the date/temperature/description line
followed by the keyword-triggered travel recommendation, then a blank line. -/
def weatherDayBlock (day : ForecastDay) : String :=
  let date := day.date.getD "Unknown"
  let temp_high := day.temperature_high.getD "N/A"
  let temp_low := day.temperature_low.getD "N/A"
  let description := day.description.getD "No description"
  let lower := pyLower description
  let line := s!"**{date}**: {temp_high}°/{temp_low}° - {description}\n"
  let tip :=
    if pyInStr "rain" lower || pyInStr "storm" lower then
      "  🌧️ *Recommend indoor activities*\n"
    else if pyInStr "snow" lower then
      "  ❄️ *Pack warm clothes, check transport*\n"
    else if pyInStr "sun" lower || pyInStr "clear" lower then
      "  ☀️ *Perfect for outdoor activities*\n"
    else ""
  line ++ tip ++ "\n"

/-- `get_weather(location, days=5)` of mcp_http_server.py (lines 280-315):
fetches the forecast, returns the ❌ message on a falsy result, otherwise
formats the header plus one block per day of `forecast[:days]`; any
exception is wrapped as `InternalError "Weather lookup failed: ..."`. -/
def get_weather (env : Env) (location : String) (days : Int := 5) : ToolOut :=
  tryWrap "Weather lookup failed" <|
    match env.get_forecast location with
    | .error e => (.error e, [.getForecast location])
    | .ok forecast =>
      if forecast.isEmpty then
        (.ok s!"❌ Unable to get weather forecast for {location}", [.getForecast location])
      else
        (.ok (weatherHeader location ++
              String.join ((pySliceTo days forecast).map weatherDayBlock)),
         [.getForecast location])

/-- Query string built by `discover_places` (mcp_http_server.py line 439):
`f"{activity_type} in {destination}"` when `activity_type` is truthy,
else `f"things to do in {destination}"`. -/
def mkPlacesQuery (activity_type : Option String) (destination : String) : String :=
  match activity_type with
  | some a => if a.isEmpty then s!"things to do in {destination}" else s!"{a} in {destination}"
  | none => s!"things to do in {destination}"

/-- Numbered place entry of the `discover_places` response
(mcp_http_server.py lines 450-462). -/
def placeBlock (i : Nat) (place : Place) : String :=
  let name := place.name.getD "Unknown Place"
  let rating := place.rating.getD "N/A"
  let address := place.address.getD "Address not available"
  let description := place.description.getD ""
  let descLine :=
    if description.isEmpty then ""
    else
      let shown := pyStrTake description 100
      let ell := if description.length > 100 then "..." else ""
      s!"   📝 {shown}{ell}\n"
  s!"**{i}. {name}**\n   ⭐ {rating} | 📍 {address}\n" ++ descLine ++ "\n"

/-- Concatenation of `f i x` over a list with `i` counting from `start`,
modelling Python `for i, x in enumerate(l, start)` loops that append text. -/
def enumBlocks (f : Nat → α → String) (start : Nat) : List α → String
  | [] => ""
  | x :: xs => f start x ++ enumBlocks f (start + 1) xs

/-- `discover_places(destination, activity_type=None, limit=10)` of
mcp_http_server.py (lines 431-467). -/
def discover_places (env : Env) (destination : String)
    (activity_type : Option String := none) (limit : Int := 10) : ToolOut :=
  tryWrap "Places search failed" <|
    let query := mkPlacesQuery activity_type destination
    match env.search_places_q query with
    | .error e => (.error e, [.searchPlacesQ query])
    | .ok places =>
      if places.isEmpty then
        (.ok s!"❌ No places found for {query}", [.searchPlacesQ query])
      else
        let catLine :=
          match activity_type with
          | some a => if a.isEmpty then "" else
              let titled := pyTitle a
              s!"🔍 Category: {titled}\n"
          | none => ""
        let header := s!"🎯 **Places to Visit in {destination}**\n" ++ catLine ++ "\n"
        (.ok (header ++ enumBlocks placeBlock 1 (pySliceTo limit places)),
         [.searchPlacesQ query])

/-- Numbered restaurant entry of the `find_restaurants` response
(mcp_http_server.py lines 505-514). -/
def restaurantBlock (i : Nat) (r : Restaurant) : String :=
  let name := r.name.getD "Unknown Restaurant"
  let rating := r.rating.getD "N/A"
  let price_level := r.price_level.getD "N/A"
  let cuisine := r.cuisine.getD "Various"
  let address := r.address.getD "Address not available"
  s!"**{i}. {name}**\n   ⭐ {rating} | 💰 {price_level} | 🍽️ {cuisine}\n   📍 {address}\n\n"

/-- `find_restaurants(destination, cuisine_types=[], dietary_restrictions=[],
price_range=None)` of mcp_http_server.py (lines 477-519).  Note the
call-time renaming `city=destination` at the collaborator call (line 487). -/
def find_restaurants (env : Env) (destination : String)
    (cuisine_types : List String := []) (dietary_restrictions : List String := [])
    (price_range : Option String := none) : ToolOut :=
  tryWrap "Restaurant search failed" <|
    match env.search_restaurants_h destination cuisine_types price_range dietary_restrictions with
    | .error e =>
        (.error e, [.searchRestaurantsH destination cuisine_types price_range dietary_restrictions])
    | .ok restaurants =>
      if restaurants.isEmpty then
        (.ok s!"❌ No restaurants found in {destination} matching your criteria",
         [.searchRestaurantsH destination cuisine_types price_range dietary_restrictions])
      else
        let cuisineLine :=
          if cuisine_types.isEmpty then "" else
            let cs := String.intercalate ", " cuisine_types
            s!"🍜 Cuisine: {cs}\n"
        let dietLine :=
          if dietary_restrictions.isEmpty then "" else
            let ds := String.intercalate ", " dietary_restrictions
            s!"🥗 Dietary: {ds}\n"
        let priceLine :=
          match price_range with
          | some p => if p.isEmpty then "" else s!"💰 Price Range: {p}\n"
          | none => ""
        let header := s!"🍽️ **Restaurant Recommendations in {destination}**\n" ++
          cuisineLine ++ dietLine ++ priceLine ++ "\n"
        (.ok (header ++ enumBlocks restaurantBlock 1 (pySliceTo 10 restaurants)),
         [.searchRestaurantsH destination cuisine_types price_range dietary_restrictions])

/-- The category the minimal server's `discover_places` forwards:
`category or "tourist_attraction"` (mcp_http_server_minimal.py line 222),
Python `or` falling back on a falsy (`None` or empty) category. -/
def minimalCategory (category : Option String) : String :=
  match category with
  | some c => if c.isEmpty then "tourist_attraction" else c
  | none => "tourist_attraction"

/-- Numbered place entry of the minimal server's `discover_places`
response (mcp_http_server_minimal.py lines 232-251). -/
def minimalPlaceBlock (i : Nat) (place : Place) : String :=
  let name := place.name.getD "Unknown Place"
  let rating := place.rating.getD "N/A"
  let address := place.address.getD "Address not available"
  let description := place.description.getD ""
  let descLine :=
    if description.isEmpty then ""
    else
      let desc_short :=
        if description.length > 150 then pyStrTake description 150 ++ "..." else description
      s!"   📝 {desc_short}\n"
  let typesLine :=
    if place.types.isEmpty then ""
    else
      let ts := String.intercalate ", " (place.types.take 2)
      s!"   🏷️ {ts}\n"
  s!"**{i}. {name}**\n   ⭐ Rating: {rating} | 📍 {address}\n" ++ descLine ++ typesLine ++ "\n"

/-- `discover_places(destination, category=None)` of
mcp_http_server_minimal.py (lines 213-256): collaborator call
`search_places(location=destination, category=category or
"tourist_attraction")`, with the ❌ "No places found" Success string on an
empty result. -/
def minimal_discover_places (env : Env) (destination : String)
    (category : Option String := none) : ToolOut :=
  tryWrap "Places search failed" <|
    let cat := minimalCategory category
    match env.search_places_lc destination cat with
    | .error e => (.error e, [.searchPlacesLc destination cat])
    | .ok places =>
      if places.isEmpty then
        (.ok s!"❌ No places found in {destination}", [.searchPlacesLc destination cat])
      else
        let catLine :=
          match category with
          | some c => if c.isEmpty then "" else
              let titled := pyTitle c
              s!"📂 Category: {titled}\n\n"
          | none => ""
        let header := s!"🌍 **Places to Discover in {destination}**\n" ++ catLine
        (.ok (header ++ enumBlocks minimalPlaceBlock 1 (pySliceTo 8 places)),
         [.searchPlacesLc destination cat])

/-- The keyword-argument list the `search_flight_options` handler passes to
the `search_flights` collaborator (mcp_http_server.py lines 391-397).
Note: `return_date` is not among the forwarded keywords, and the departure
date is forwarded under the keyword `departure_date`. -/
def flightCallKwargs (origin destination departure_date : String)
    (adults : Int) (cabin_class : String) : List (String × Val) :=
  [("origin", .str origin), ("destination", .str destination),
   ("departure_date", .str departure_date), ("adults", .int adults),
   ("cabin_class", .str cabin_class)]

/-- The keyword names of `flightCallKwargs`, as a static table. -/
def flightCallKwargNames : List String :=
  ["origin", "destination", "departure_date", "adults", "cabin_class"]

/-- Numbered flight entry of the `search_flight_options` response
(mcp_http_server.py lines 406-416). -/
def flightBlock (i : Nat) (f : Flight) : String :=
  let airline := f.airline.getD "Unknown"
  let price := f.price.getD "N/A"
  let departure_time := f.departure_time.getD "TBD"
  let arrival_time := f.arrival_time.getD "TBD"
  let duration := f.duration.getD "N/A"
  let stops := f.stops.getD 0
  s!"**{i}. {airline}**\n   💰 ${price} | 🕐 {departure_time} → {arrival_time} ({duration})\n   ✈️ {stops} stop(s)\n\n"

/-- `search_flight_options(origin, destination, departure_date,
return_date=None, adults=1, cabin_class="economy")` of mcp_http_server.py
(lines 380-421).  `return_date` is used only for the truthiness test
choosing the "Round Trip"/"One Way" label (line 402). -/
def search_flight_options (env : Env) (origin destination departure_date : String)
    (return_date : Option String := none) (adults : Int := 1)
    (cabin_class : String := "economy") : ToolOut :=
  tryWrap "Flight search failed" <|
    let kwargs := flightCallKwargs origin destination departure_date adults cabin_class
    match env.search_flights kwargs with
    | .error e => (.error e, [.searchFlights kwargs])
    | .ok flights =>
      if flights.isEmpty then
        (.ok s!"❌ No flights found from {origin} to {destination} on {departure_date}",
         [.searchFlights kwargs])
      else
        let trip_type := if pyTruthyOptStr return_date then "Round Trip" else "One Way"
        let titled := pyTitle cabin_class
        let header := s!"✈️ **Flight Options: {origin} → {destination}**\n" ++
          s!"📅 {departure_date} | 👥 {adults} adult(s) | 🎫 {titled} | {trip_type}\n\n"
        (.ok (header ++ enumBlocks flightBlock 1 (pySliceTo 6 flights)),
         [.searchFlights kwargs])

/-- Visa section of the `check_travel_requirements` response
(mcp_http_server.py lines 543-554); empty when `visa_info` is falsy. -/
def formatVisaSection (visa_info : Option VisaInfo) : String :=
  match visa_info with
  | none => ""
  | some v =>
    let requiredPart :=
      if v.required then
        let vtype := v.vtype.getD "Tourist visa"
        let processing_time := v.processing_time.getD "Check embassy"
        let fee := v.fee.getD "Contact embassy"
        s!"   ✅ Visa Required: {vtype}\n   ⏱️ Processing Time: {processing_time}\n   💰 Fee: {fee}\n"
      else
        "   ✅ No visa required for tourist visits\n"
    let durationPart :=
      match v.duration with
      | some du => if du.isEmpty then "" else s!"   📅 Max Stay: {du}\n"
      | none => ""
    "🛂 **Visa Requirements:**\n" ++ requiredPart ++ durationPart ++ "\n"

/-- Safety section of the `check_travel_requirements` response
(mcp_http_server.py lines 557-565); empty when `safety_info` is falsy. -/
def formatSafetySection (safety_info : Option SafetyInfo) : String :=
  match safety_info with
  | none => ""
  | some s_ =>
    let level := s_.level.getD "Standard precautions"
    let advisoryLines :=
      if s_.advisories.isEmpty then ""
      else String.join ((s_.advisories.take 3).map (fun a => s!"   • {a}\n"))
    let last_updated := s_.last_updated.getD "N/A"
    s!"⚠️ **Safety Advisory:**\n   🚨 Level: {level}\n" ++ advisoryLines ++
      s!"   📅 Last Updated: {last_updated}\n\n"

/-- `check_travel_requirements(origin_country, destination_country)` of
mcp_http_server.py (lines 529-572): one `check_visa_requirements` call,
then one `get_safety_advisories` call, then formatting. -/
def check_travel_requirements (env : Env) (origin_country destination_country : String) : ToolOut :=
  tryWrap "Travel requirements check failed" <|
    match env.check_visa_requirements origin_country destination_country with
    | .error e => (.error e, [.checkVisa origin_country destination_country])
    | .ok visa_info =>
      match env.get_safety_advisories destination_country with
      | .error e =>
          (.error e, [.checkVisa origin_country destination_country,
                      .safetyAdvisories destination_country])
      | .ok safety_info =>
        (.ok (s!"📋 **Travel Requirements: {origin_country} → {destination_country}**\n\n" ++
              formatVisaSection visa_info ++ formatSafetySection safety_info ++
              "ℹ️ **Note**: Always verify current requirements with official embassy sources before travel."),
         [.checkVisa origin_country destination_country,
          .safetyAdvisories destination_country])

/-- The tool names registered by the `@mcp.tool` decorators of
mcp_http_server.py, in source order.  Registration simply attaches the
handler to the `FastMCP` instance; no mapping-coverage check is run. -/
def httpToolNames : List String :=
  ["validate", "plan_trip", "get_weather", "search_hotel_options",
   "search_flight_options", "discover_places", "find_restaurants",
   "check_travel_requirements"]

/-! ### stdio server (src/mcp_server.py): registry, schemas, dispatch -/

/-- Looks up an argument by name in a tool-call argument mapping
(Python `kwargs[p]` / `kwargs.get(p)`). -/
def findArg (args : List (String × Val)) (p : String) : Option Val :=
  (args.find? (fun kv => kv.1 = p)).map (fun kv => kv.2)

/-- One parameter of a tool's declared JSON schema.  Every parameter of the
four stdio-server schemas is string-typed, so only the required flag
varies (mcp_server.py `input_schema` blocks). -/
structure ParamSpec where
  name : String
  required : Bool
deriving DecidableEq, Repr

/-- A registered tool: its unique name, declared parameter schema, and
handler.  Mirrors what each `@server.tool(name=..., input_schema=...)`
decorator of mcp_server.py attaches to the `Server` instance. -/
structure ToolSpec where
  name : String
  params : List ParamSpec
  handler : List (String × Val) → Env → HandlerOut

/-- `tool_get_weather` of mcp_server.py (lines 48-61): forwards
`kwargs["location"]` to `get_forecast` and wraps the raw forecast. -/
def tool_get_weather (args : List (String × Val)) (env : Env) : HandlerOut :=
  match findArg args "location" with
  | none => (.error "KeyError: location", [])
  | some loc =>
    match env.get_forecast_v loc with
    | .error e => (.error e, [.getForecastV loc])
    | .ok forecast => (.ok (.jforecast forecast), [.getForecastV loc])

/-- `tool_discover_places` of mcp_server.py (lines 64-81): the tool-facing
`destination` argument is renamed to the collaborator keyword `location`
at the call site, with `category` defaulted to `"tourist_attraction"`. -/
def tool_discover_places (args : List (String × Val)) (env : Env) : HandlerOut :=
  match findArg args "destination" with
  | none => (.error "KeyError: destination", [])
  | some dest =>
    let category := (findArg args "category").getD (.str "tourist_attraction")
    match env.search_places_v dest category with
    | .error e => (.error e, [.searchPlacesV dest category])
    | .ok places => (.ok (.jplaces places), [.searchPlacesV dest category])

/-- `tool_find_restaurants` of mcp_server.py (lines 84-103): tool-facing
`cuisine_type` is renamed to collaborator keyword `cuisine`; absent
optional arguments are forwarded as Python `None`. -/
def tool_find_restaurants (args : List (String × Val)) (env : Env) : HandlerOut :=
  match findArg args "location" with
  | none => (.error "KeyError: location", [])
  | some loc =>
    let cuisine := (findArg args "cuisine_type").getD .vnone
    let price_range := (findArg args "price_range").getD .vnone
    match env.search_restaurants_v loc cuisine price_range with
    | .error e => (.error e, [.searchRestaurantsV loc cuisine price_range])
    | .ok rs => (.ok (.jrestaurants rs), [.searchRestaurantsV loc cuisine price_range])

/-- `tool_check_travel_requirements` of mcp_server.py (lines 106-132):
one visa call, one safety call, payload
`{"visa_requirements": ..., "safety_advisories": ...}` with both
collaborator results passed through unmodified. -/
def tool_check_travel_requirements (args : List (String × Val)) (env : Env) : HandlerOut :=
  match findArg args "origin_country" with
  | none => (.error "KeyError: origin_country", [])
  | some origin =>
    match findArg args "destination_country" with
    | none => (.error "KeyError: destination_country", [])
    | some dest =>
      match env.check_visa_requirements_v origin dest with
      | .error e => (.error e, [.checkVisaV origin dest])
      | .ok visa_info =>
        match env.get_safety_advisories_v dest with
        | .error e => (.error e, [.checkVisaV origin dest, .safetyAdvisoriesV dest])
        | .ok safety_info =>
          (.ok (.jtravel visa_info safety_info),
           [.checkVisaV origin dest, .safetyAdvisoriesV dest])

/-- The stdio server's tool registry, in registration (source) order, with
the parameter schemas declared by the `input_schema` blocks of
mcp_server.py. -/
def stdioTools : List ToolSpec :=
  [⟨"get_weather", [⟨"location", true⟩], tool_get_weather⟩,
   ⟨"discover_places", [⟨"destination", true⟩, ⟨"category", false⟩], tool_discover_places⟩,
   ⟨"find_restaurants",
      [⟨"location", true⟩, ⟨"cuisine_type", false⟩, ⟨"price_range", false⟩],
      tool_find_restaurants⟩,
   ⟨"check_travel_requirements",
      [⟨"destination_country", true⟩, ⟨"origin_country", true⟩],
      tool_check_travel_requirements⟩]

/-- Registry lookup by tool name. -/
def lookupTool : List ToolSpec → String → Option ToolSpec
  | [], _ => none
  | t :: ts, n => if t.name = n then some t else lookupTool ts n

/-- Whether a supplied value satisfies the schema type of these tools
(every declared parameter is `"type": "string"`). -/
def isStrVal : Val → Bool
  | .str _ => true
  | _ => false

/-- Validation message for a missing required parameter, naming it. -/
def missingParamMsg (p : String) : String :=
  s!"Missing required parameter: {p}"

/-- Validation message for a wrongly-typed parameter, naming it. -/
def badTypeMsg (p : String) : String :=
  s!"Parameter has invalid type: {p}"

/-- Modelled from the spec: schema validation of an argument mapping.
The validation machinery itself lives in the external MCP framework (not
in this repository); the spec requires that, for each parameter declared
`required` in the ToolSpec, the mapping contain a value of the declared
semantic type, and that a missing or mistyped argument fail with
`InvalidParams` naming the offending parameter before any collaborator is
invoked.  Returns the error message for the first violated parameter, in
schema order, or `none` when the mapping validates. -/
def validateArgs : List ParamSpec → List (String × Val) → Option String
  | [], _ => none
  | ps :: rest, args =>
    match findArg args ps.name with
    | none => if ps.required then some (missingParamMsg ps.name) else validateArgs rest args
    | some v => if isStrVal v then validateArgs rest args else some (badTypeMsg ps.name)

/-- A decoded tool-call request: tool name plus argument mapping. -/
structure Request where
  name : String
  args : List (String × Val)

/-- Modelled from the spec: the dispatch step of the transport binding
(registry lookup → schema validation → handler), which in the running
system is performed by the external MCP framework against the schemas
declared in mcp_server.py.  Unknown tool → `InvalidRequest`; validation
failure → `InvalidParams` with zero collaborator calls; an exception
escaping the handler is surfaced as `InternalError`. -/
def dispatch (tools : List ToolSpec) (env : Env) (req : Request) :
    Except Failure PayloadV × List ProviderCall :=
  match lookupTool tools req.name with
  | none => (.error (.invalidRequest s!"Unknown tool: {req.name}"), [])
  | some t =>
    match validateArgs t.params req.args with
    | some m => (.error (.invalidParams m), [])
    | none =>
      match t.handler req.args env with
      | (.ok p, tr) => (.ok p, tr)
      | (.error e, tr) => (.error (.internalError e), tr)

/-- One serving step: the registry is a read-only input of `dispatch`; the
serving loop threads the registry state so that its preservation is a
provable statement rather than a typing accident. -/
def serveStep (tools : List ToolSpec) (env : Env) (req : Request) :
    (Except Failure PayloadV × List ProviderCall) × List ToolSpec :=
  (dispatch tools env req, tools)

/-- Serving a sequence of requests, threading the registry state. -/
def serve (tools : List ToolSpec) (env : Env) :
    List Request → List (Except Failure PayloadV × List ProviderCall) × List ToolSpec
  | [] => ([], tools)
  | r :: rs =>
    let (out, tools2) := serveStep tools env r
    let (outs, tools3) := serve tools2 env rs
    (out :: outs, tools3)

/-! ### The flight collaborator signature documented in the repository -/

/-- The parameters of `services/flights_api.py::search_flights` as the
repository itself documents them in src/PARAMETER_FIXES.py:
`search_flights(origin, destination, date, adults=1, cabin_class=...)`. -/
def searchFlightsParams : List String :=
  ["origin", "destination", "date", "adults", "cabin_class"]

/-- The parameters of `search_flights` that have no default
(per the signature documented in src/PARAMETER_FIXES.py). -/
def searchFlightsRequired : List String :=
  ["origin", "destination", "date"]

/-- Python keyword binding against the documented `search_flights`
signature: a keyword not among the declared parameters raises
`TypeError` (the error documented verbatim in src/PARAMETER_FIXES.py);
otherwise a missing required parameter raises `TypeError`; otherwise the
call succeeds and the collaborator returns the stubbed flight list.
(Message text modelled without the quote characters of CPython.) -/
def pyBindSearchFlights (stub : List Flight) (kwargs : List (String × Val)) :
    Except String (List Flight) :=
  match kwargs.find? (fun kv => !(searchFlightsParams.contains kv.1)) with
  | some kv =>
      .error s!"search_flights() got an unexpected keyword argument {kv.1}"
  | none =>
    match searchFlightsRequired.find? (fun p => (findArg kwargs p).isNone) with
    | some p => .error s!"search_flights() missing required argument: {p}"
    | none => .ok stub

/-! ### Stub environments and concrete fixtures used by the theorems -/

/-- Environment in which every collaborator raises; individual stubs
override the fields they need. -/
def baseEnv : Env where
  get_forecast := fun _ => .error "unstubbed collaborator"
  search_places_q := fun _ => .error "unstubbed collaborator"
  search_places_lc := fun _ _ => .error "unstubbed collaborator"
  search_restaurants_h := fun _ _ _ _ => .error "unstubbed collaborator"
  check_visa_requirements := fun _ _ => .error "unstubbed collaborator"
  get_safety_advisories := fun _ => .error "unstubbed collaborator"
  search_flights := fun _ => .error "unstubbed collaborator"
  get_forecast_v := fun _ => .error "unstubbed collaborator"
  search_places_v := fun _ _ => .error "unstubbed collaborator"
  search_restaurants_v := fun _ _ _ => .error "unstubbed collaborator"
  check_visa_requirements_v := fun _ _ => .error "unstubbed collaborator"
  get_safety_advisories_v := fun _ => .error "unstubbed collaborator"

/-- Call-counting stub: every collaborator succeeds with an empty result
(the calls themselves are recorded by the handlers). -/
def okEnv : Env where
  get_forecast := fun _ => .ok []
  search_places_q := fun _ => .ok []
  search_places_lc := fun _ _ => .ok []
  search_restaurants_h := fun _ _ _ _ => .ok []
  check_visa_requirements := fun _ _ => .ok none
  get_safety_advisories := fun _ => .ok none
  search_flights := fun _ => .ok []
  get_forecast_v := fun _ => .ok []
  search_places_v := fun _ _ => .ok []
  search_restaurants_v := fun _ _ _ => .ok []
  check_visa_requirements_v := fun _ _ => .ok none
  get_safety_advisories_v := fun _ => .ok none

/-- Stub environment whose visa and safety collaborators return the given
fixed records (both call-site shapes). -/
def stubTravelEnv (visa : Option VisaInfo) (safety : Option SafetyInfo) : Env :=
  { baseEnv with
    check_visa_requirements := fun _ _ => .ok visa
    get_safety_advisories := fun _ => .ok safety
    check_visa_requirements_v := fun _ _ => .ok visa
    get_safety_advisories_v := fun _ => .ok safety }

/-- Stub places collaborator returning an empty list of matches
(both call-site shapes). -/
def emptyPlacesEnv : Env :=
  { baseEnv with
    search_places_q := fun _ => .ok []
    search_places_lc := fun _ _ => .ok [] }

/-- Stub environment whose weather collaborator raises `boom`. -/
def boomWeatherEnv : Env :=
  { baseEnv with get_forecast := fun _ => .error "boom" }

/-- Stub environment whose flight collaborator is the documented
`search_flights` signature (Python keyword binding included),
returning `stub` on a successful binding. -/
def flightEnv (stub : List Flight) : Env :=
  { baseEnv with search_flights := pyBindSearchFlights stub }

/-- A five-day stub forecast for London. -/
def londonForecast : List ForecastDay :=
  [⟨some "2025-03-01", some "8", some "3", some "Sunny"⟩,
   ⟨some "2025-03-02", some "9", some "4", some "Rain"⟩,
   ⟨some "2025-03-03", some "10", some "5", some "Cloudy"⟩,
   ⟨some "2025-03-04", some "11", some "6", some "Clear"⟩,
   ⟨some "2025-03-05", some "12", some "7", some "Snow"⟩]

/-- Stub environment returning the five-day London forecast. -/
def londonEnv : Env :=
  { baseEnv with get_forecast := fun _ => .ok londonForecast }

/-- The formatted response of `get_weather` for the London stub with
`days = 3`: exactly the first three forecast days appear. -/
def londonWeatherOut : String :=
  "🌤️ **Weather Forecast for London**\n\n" ++
  "**2025-03-01**: 8°/3° - Sunny\n  ☀️ *Perfect for outdoor activities*\n\n" ++
  "**2025-03-02**: 9°/4° - Rain\n  🌧️ *Recommend indoor activities*\n\n" ++
  "**2025-03-03**: 10°/5° - Cloudy\n\n"

/-- Fixed visa stub record for the United States → Japan test. -/
def usJapanVisa : VisaInfo :=
  ⟨true, some "Tourist visa TYPE-B1", some "10 business days",
   some "160 USD", some "90 days"⟩

/-- Fixed safety stub record for the Japan test. -/
def japanSafety : SafetyInfo :=
  ⟨some "Level 1 - Exercise normal precautions",
   ["Avoid crowded demonstrations", "Carry your passport at all times"],
   some "2025-08-01"⟩

/-- The full `check_travel_requirements` response for the United States →
Japan stub records above. -/
def usJapanTravelOut : String :=
  "📋 **Travel Requirements: United States → Japan**\n\n" ++
  "🛂 **Visa Requirements:**\n   ✅ Visa Required: Tourist visa TYPE-B1\n" ++
  "   ⏱️ Processing Time: 10 business days\n   💰 Fee: 160 USD\n   📅 Max Stay: 90 days\n\n" ++
  "⚠️ **Safety Advisory:**\n   🚨 Level: Level 1 - Exercise normal precautions\n" ++
  "   • Avoid crowded demonstrations\n   • Carry your passport at all times\n" ++
  "   📅 Last Updated: 2025-08-01\n\n" ++
  "ℹ️ **Note**: Always verify current requirements with official embassy sources before travel."

/-- Stub environment whose visa collaborator succeeds but whose safety
collaborator raises. -/
def visaOkSafetyBoomEnv : Env :=
  { baseEnv with check_visa_requirements := fun _ _ => .ok none }

/-- A parameter of a tool schema is violated by an argument mapping when a
required parameter has no value, or a supplied value is not of the
declared (string) type. -/
def paramViolated (args : List (String × Val)) (ps : ParamSpec) : Prop :=
  (ps.required = true ∧ findArg args ps.name = none) ∨
  (∃ v, findArg args ps.name = some v ∧ isStrVal v = false)

/-! ### HTTP server registry and dispatch (src/mcp_http_server.py) -/

/-- The semantic parameter types occurring in the HTTP tool annotations
(`str`, `int`, `str | None`, `list[str]`). -/
inductive PType where
  | pstr
  | pint
  | poptStr
  | plistStr
deriving DecidableEq, Repr

/-- Whether a supplied value satisfies a declared semantic type. -/
def valMatches : PType → Val → Bool
  | .pstr, .str _ => true
  | .pint, .int _ => true
  | .poptStr, .str _ => true
  | .poptStr, .vnone => true
  | .plistStr, .list _ => true
  | _, _ => false

/-- One parameter of an HTTP tool's schema, derived from the handler's
type annotations in mcp_http_server.py: required exactly when the
parameter has no default value. -/
structure HttpParamSpec where
  name : String
  ptype : PType
  required : Bool
deriving DecidableEq, Repr

/-- A tool registered on the HTTP server: name, schema, and handler
(taking the validated argument mapping). -/
structure HttpToolSpec where
  name : String
  params : List HttpParamSpec
  handler : List (String × Val) → Env → ToolOut

/-- Modelled from the spec: the framework's binding of a validated
argument mapping to the typed `get_weather` handler (annotations at
mcp_http_server.py lines 281-283: `location` required, `days` defaulting
to 5).  Reached only after schema validation. -/
def http_get_weather (args : List (String × Val)) (env : Env) : ToolOut :=
  match findArg args "location" with
  | some (.str location) =>
    (match findArg args "days" with
     | some (.int n) => get_weather env location n
     | _ => get_weather env location 5)
  | _ => (.error (.invalidParams (missingParamMsg "location")), [])

/-- Modelled from the spec: argument binding for `discover_places`
(mcp_http_server.py lines 432-435: `destination` required,
`activity_type` defaulting to None, `limit` defaulting to 10). -/
def http_discover_places (args : List (String × Val)) (env : Env) : ToolOut :=
  match findArg args "destination" with
  | some (.str destination) =>
    let activity_type : Option String :=
      match findArg args "activity_type" with
      | some (.str a) => some a
      | _ => none
    let limit : Int :=
      match findArg args "limit" with
      | some (.int n) => n
      | _ => 10
    discover_places env destination activity_type limit
  | _ => (.error (.invalidParams (missingParamMsg "destination")), [])

/-- Modelled from the spec: argument binding for `find_restaurants`
(mcp_http_server.py lines 478-482: `destination` required, the list
parameters defaulting to `[]`, `price_range` defaulting to None). -/
def http_find_restaurants (args : List (String × Val)) (env : Env) : ToolOut :=
  match findArg args "destination" with
  | some (.str destination) =>
    let cuisine_types : List String :=
      match findArg args "cuisine_types" with
      | some (.list xs) => xs
      | _ => []
    let dietary_restrictions : List String :=
      match findArg args "dietary_restrictions" with
      | some (.list xs) => xs
      | _ => []
    let price_range : Option String :=
      match findArg args "price_range" with
      | some (.str p) => some p
      | _ => none
    find_restaurants env destination cuisine_types dietary_restrictions price_range
  | _ => (.error (.invalidParams (missingParamMsg "destination")), [])

/-- Modelled from the spec: argument binding for `search_flight_options`
(mcp_http_server.py lines 382-387: origin, destination and
departure_date required; return_date, adults and cabin_class
defaulting). -/
def http_search_flight_options (args : List (String × Val)) (env : Env) : ToolOut :=
  match findArg args "origin", findArg args "destination", findArg args "departure_date" with
  | some (.str origin), some (.str destination), some (.str departure_date) =>
    let return_date : Option String :=
      match findArg args "return_date" with
      | some (.str r) => some r
      | _ => none
    let adults : Int :=
      match findArg args "adults" with
      | some (.int n) => n
      | _ => 1
    let cabin_class : String :=
      match findArg args "cabin_class" with
      | some (.str c) => c
      | _ => "economy"
    search_flight_options env origin destination departure_date return_date adults cabin_class
  | _, _, _ => (.error (.invalidParams (missingParamMsg "origin")), [])

/-- Modelled from the spec: argument binding for
`check_travel_requirements` (mcp_http_server.py lines 530-532: both
country parameters required). -/
def http_check_travel_requirements (args : List (String × Val)) (env : Env) : ToolOut :=
  match findArg args "origin_country", findArg args "destination_country" with
  | some (.str origin_country), some (.str destination_country) =>
    check_travel_requirements env origin_country destination_country
  | _, _ => (.error (.invalidParams (missingParamMsg "origin_country")), [])

/-- The embedded travel tools of the HTTP server's registry, with schemas
derived from the handler annotations of mcp_http_server.py (a parameter
is required exactly when its annotation declares no default). -/
def httpTools : List HttpToolSpec :=
  [⟨"get_weather",
     [⟨"location", .pstr, true⟩, ⟨"days", .pint, false⟩],
     http_get_weather⟩,
   ⟨"search_flight_options",
     [⟨"origin", .pstr, true⟩, ⟨"destination", .pstr, true⟩,
      ⟨"departure_date", .pstr, true⟩, ⟨"return_date", .poptStr, false⟩,
      ⟨"adults", .pint, false⟩, ⟨"cabin_class", .pstr, false⟩],
     http_search_flight_options⟩,
   ⟨"discover_places",
     [⟨"destination", .pstr, true⟩, ⟨"activity_type", .poptStr, false⟩,
      ⟨"limit", .pint, false⟩],
     http_discover_places⟩,
   ⟨"find_restaurants",
     [⟨"destination", .pstr, true⟩, ⟨"cuisine_types", .plistStr, false⟩,
      ⟨"dietary_restrictions", .plistStr, false⟩, ⟨"price_range", .poptStr, false⟩],
     http_find_restaurants⟩,
   ⟨"check_travel_requirements",
     [⟨"origin_country", .pstr, true⟩, ⟨"destination_country", .pstr, true⟩],
     http_check_travel_requirements⟩]

/-- Registry lookup by tool name (HTTP registry). -/
def lookupToolH : List HttpToolSpec → String → Option HttpToolSpec
  | [], _ => none
  | t :: ts, n => if t.name = n then some t else lookupToolH ts n

/-- Modelled from the spec: schema validation of an argument mapping
against an HTTP tool's schema (in the running system performed by the
framework's pydantic layer against the annotations of
mcp_http_server.py).  Returns the error message for the first violated
parameter, in schema order, or `none` when the mapping validates. -/
def validateArgsH : List HttpParamSpec → List (String × Val) → Option String
  | [], _ => none
  | ps :: rest, args =>
    match findArg args ps.name with
    | none => if ps.required then some (missingParamMsg ps.name) else validateArgsH rest args
    | some v => if valMatches ps.ptype v then validateArgsH rest args else some (badTypeMsg ps.name)

/-- Modelled from the spec: the HTTP transport's dispatch step (registry
lookup → schema validation → handler), performed in the running system by
the external FastMCP framework.  Validation failure yields
`InvalidParams` with zero collaborator calls. -/
def dispatchH (tools : List HttpToolSpec) (env : Env) (req : Request) : ToolOut :=
  match lookupToolH tools req.name with
  | none => (.error (.invalidRequest s!"Unknown tool: {req.name}"), [])
  | some t =>
    match validateArgsH t.params req.args with
    | some m => (.error (.invalidParams m), [])
    | none => t.handler req.args env

/-- Violation of an HTTP schema parameter by an argument mapping:
a required parameter has no value, or a supplied value does not match
the declared semantic type. -/
def paramViolatedH (args : List (String × Val)) (ps : HttpParamSpec) : Prop :=
  (ps.required = true ∧ findArg args ps.name = none) ∨
  (∃ v, findArg args ps.name = some v ∧ valMatches ps.ptype v = false)

/-! ### Theorems -/

deriving instance DecidableEq for Except

set_option maxRecDepth 100000

/-- The modelled validator reports (by name) a violated parameter whenever
one exists. -/
theorem validateArgs_of_violation (params : List ParamSpec) (args : List (String × Val))
    (h : ∃ ps ∈ params, paramViolated args ps) :
    ∃ ps ∈ params, paramViolated args ps ∧
      (validateArgs params args = some (missingParamMsg ps.name) ∨
       validateArgs params args = some (badTypeMsg ps.name)) := by
  induction params with
  | nil => obtain ⟨ps, hmem, _⟩ := h; simp at hmem
  | cons p rest ih =>
    cases hf : findArg args p.name with
    | none =>
      by_cases hr : p.required = true
      · exact ⟨p, by simp, Or.inl ⟨hr, hf⟩, Or.inl (by simp [validateArgs, hf, hr])⟩
      · obtain ⟨ps, hmem, hviol⟩ := h
        rcases List.mem_cons.mp hmem with heq | hmem2
        · subst heq
          rcases hviol with ⟨hr2, _⟩ | ⟨v, hv, _⟩
          · exact absurd hr2 hr
          · rw [hf] at hv; exact absurd hv (by simp)
        · obtain ⟨ps2, hm2, hv2, hval2⟩ := ih ⟨ps, hmem2, hviol⟩
          refine ⟨ps2, by simp [hm2], hv2, ?_⟩
          simpa [validateArgs, hf, hr] using hval2
    | some v =>
      by_cases hs : isStrVal v = true
      · obtain ⟨ps, hmem, hviol⟩ := h
        rcases List.mem_cons.mp hmem with heq | hmem2
        · subst heq
          rcases hviol with ⟨_, hn⟩ | ⟨v2, hv2, hsv2⟩
          · rw [hf] at hn; exact absurd hn (by simp)
          · rw [hf] at hv2
            obtain rfl : v = v2 := by injection hv2
            rw [hs] at hsv2; exact absurd hsv2 (by simp)
        · obtain ⟨ps2, hm2, hv2, hval2⟩ := ih ⟨ps, hmem2, hviol⟩
          refine ⟨ps2, by simp [hm2], hv2, ?_⟩
          simpa [validateArgs, hf, hs] using hval2
      · refine ⟨p, by simp, Or.inr ⟨v, hf, by simpa using hs⟩, Or.inr ?_⟩
        simp [validateArgs, hf, hs]

/-- Dispatch stops at a failed validation: `InvalidParams` and no handler run. -/
theorem dispatch_validation_fails (tools : List ToolSpec) (env : Env) (t : ToolSpec)
    (args : List (String × Val)) (m : String)
    (hl : lookupTool tools t.name = some t)
    (hv : validateArgs t.params args = some m) :
    dispatch tools env ⟨t.name, args⟩ = (.error (.invalidParams m), []) := by
  simp [dispatch, hl, hv]

/-- The modelled HTTP validator reports (by name) a violated parameter
whenever one exists. -/
theorem validateArgsH_of_violation (params : List HttpParamSpec) (args : List (String × Val))
    (h : ∃ ps ∈ params, paramViolatedH args ps) :
    ∃ ps ∈ params, paramViolatedH args ps ∧
      (validateArgsH params args = some (missingParamMsg ps.name) ∨
       validateArgsH params args = some (badTypeMsg ps.name)) := by
  induction params with
  | nil => obtain ⟨ps, hmem, _⟩ := h; simp at hmem
  | cons p rest ih =>
    cases hf : findArg args p.name with
    | none =>
      by_cases hr : p.required = true
      · exact ⟨p, by simp, Or.inl ⟨hr, hf⟩, Or.inl (by simp [validateArgsH, hf, hr])⟩
      · obtain ⟨ps, hmem, hviol⟩ := h
        rcases List.mem_cons.mp hmem with heq | hmem2
        · subst heq
          rcases hviol with ⟨hr2, _⟩ | ⟨v, hv, _⟩
          · exact absurd hr2 hr
          · rw [hf] at hv; exact absurd hv (by simp)
        · obtain ⟨ps2, hm2, hv2, hval2⟩ := ih ⟨ps, hmem2, hviol⟩
          refine ⟨ps2, by simp [hm2], hv2, ?_⟩
          simpa [validateArgsH, hf, hr] using hval2
    | some v =>
      by_cases hs : valMatches p.ptype v = true
      · obtain ⟨ps, hmem, hviol⟩ := h
        rcases List.mem_cons.mp hmem with heq | hmem2
        · subst heq
          rcases hviol with ⟨_, hn⟩ | ⟨v2, hv2, hsv2⟩
          · rw [hf] at hn; exact absurd hn (by simp)
          · rw [hf] at hv2
            obtain rfl : v = v2 := by injection hv2
            rw [hs] at hsv2; exact absurd hsv2 (by simp)
        · obtain ⟨ps2, hm2, hv2, hval2⟩ := ih ⟨ps, hmem2, hviol⟩
          refine ⟨ps2, by simp [hm2], hv2, ?_⟩
          simpa [validateArgsH, hf, hs] using hval2
      · refine ⟨p, by simp, Or.inr ⟨v, hf, by simpa using hs⟩, Or.inr ?_⟩
        simp [validateArgsH, hf, hs]

/-- HTTP dispatch stops at a failed validation: `InvalidParams` and no
handler run. -/
theorem dispatchH_validation_fails (tools : List HttpToolSpec) (env : Env) (t : HttpToolSpec)
    (args : List (String × Val)) (m : String)
    (hl : lookupToolH tools t.name = some t)
    (hv : validateArgsH t.params args = some m) :
    dispatchH tools env ⟨t.name, args⟩ = (.error (.invalidParams m), []) := by
  simp [dispatchH, hl, hv]

/-- Counterexample for C4: on the stdio server (mcp_server.py lines
76-81), `discover_places` against a places collaborator returning the
empty list yields a `Success` whose payload is the bare empty list passed
straight through (`_json_content(places)` is returned unconditionally,
serialising to "[]") — it carries no "no results" indicator of any kind,
so the claim is false for this registered `discover_places`. -/
theorem c4_stdio_empty_passthrough :
    dispatch stdioTools okEnv ⟨"discover_places", [("destination", .str "Atlantis")]⟩ =
      (.ok (.jplaces []),
       [.searchPlacesV (.str "Atlantis") (.str "tourist_attraction")]) := rfl

/-- C4 (amended): on both HTTP servers — `discover_places` of
mcp_http_server.py and of mcp_http_server_minimal.py — whenever the
places collaborator returns an empty list, the invocation returns a
`Success` carrying the explicit ❌ "No places found" indicator, not a
`Failure`.  (The stdio server's `discover_places` instead passes the bare
empty list through.) -/
theorem c4_http_empty_places_is_success :
    (∀ (env : Env) (destination : String) (activity_type : Option String) (limit : Int),
      env.search_places_q (mkPlacesQuery activity_type destination) = .ok [] →
      discover_places env destination activity_type limit =
        (.ok s!"❌ No places found for {mkPlacesQuery activity_type destination}",
         [.searchPlacesQ (mkPlacesQuery activity_type destination)]))
    ∧ (∀ (env : Env) (destination : String) (category : Option String),
      env.search_places_lc destination (minimalCategory category) = .ok [] →
      minimal_discover_places env destination category =
        (.ok s!"❌ No places found in {destination}",
         [.searchPlacesLc destination (minimalCategory category)])) := by
  constructor
  · intro env destination activity_type limit h
    simp [discover_places, tryWrap, h]
  · intro env destination category h
    simp [minimal_discover_places, tryWrap, h]

/-- Witness for the amended C4: concrete empty-list stubs against both
HTTP variants. -/
theorem c4_http_empty_places_is_success_witness :
    discover_places emptyPlacesEnv "Atlantis" (some "museums") 10 =
      (.ok "❌ No places found for museums in Atlantis",
       [.searchPlacesQ "museums in Atlantis"])
    ∧ minimal_discover_places emptyPlacesEnv "Atlantis" (some "museums") =
      (.ok "❌ No places found in Atlantis",
       [.searchPlacesLc "Atlantis" "museums"]) :=
  ⟨(c4_http_empty_places_is_success.1 emptyPlacesEnv "Atlantis" (some "museums") 10
      rfl).trans (by decide),
   (c4_http_empty_places_is_success.2 emptyPlacesEnv "Atlantis" (some "museums")
      rfl).trans (by decide)⟩

/-- C5: whenever the forecast has at least `days` entries (with `days`
nonnegative and the forecast nonempty), `get_weather` succeeds with the
header followed by one detail block per day of exactly the `days`-element
prefix of the forecast; in particular, against the five-day London stub
with `days = 3` the response shows exactly 3 days of detail (three
temperature markers). -/
theorem c5_weather_limited_to_days :
    (∀ (env : Env) (location : String) (days : Int) (forecast : List ForecastDay),
        env.get_forecast location = .ok forecast → forecast ≠ [] →
        0 ≤ days → days.toNat ≤ forecast.length →
        get_weather env location days =
          (.ok (weatherHeader location ++
                String.join ((forecast.take days.toNat).map weatherDayBlock)),
           [.getForecast location]) ∧
        (forecast.take days.toNat).length = days.toNat ∧
        forecast.take days.toNat <+: forecast)
    ∧ get_weather londonEnv "London" 3 = (.ok londonWeatherOut, [.getForecast "London"])
    ∧ countOcc "°/".data londonWeatherOut.data = 3 := by
  refine ⟨?_, by decide, by decide⟩
  intro env location days forecast h hne h0 hlen
  refine ⟨?_, ?_, List.take_prefix _ _⟩
  · have hemp : forecast.isEmpty = false := by
      simpa [List.isEmpty_iff] using hne
    simp [get_weather, tryWrap, h, hemp, pySliceTo, not_lt.mpr h0]
  · simp [List.length_take, Nat.min_eq_left hlen]

/-- Witness for C5: the London stub instance. -/
theorem c5_weather_limited_to_days_witness :
    get_weather londonEnv "London" 3 =
      (.ok (weatherHeader "London" ++
            String.join ((londonForecast.take 3).map weatherDayBlock)),
       [.getForecast "London"]) ∧
    (londonForecast.take 3).length = 3 := by
  have h := (c5_weather_limited_to_days.1 londonEnv "London" 3 londonForecast rfl
    (by decide) (by decide) (by decide))
  exact ⟨h.1, h.2.1⟩

/-- C10: `get_weather` does not validate `days` against the advertised 1-7
range: with a nonempty forecast, `days = 0` yields a `Success` holding
just the forecast header (zero days of detail), and any `days` at least
the forecast length yields detail for every forecast day. -/
theorem c10_days_unvalidated :
    ∀ (env : Env) (location : String) (forecast : List ForecastDay),
      env.get_forecast location = .ok forecast → forecast ≠ [] →
      get_weather env location 0 =
        (.ok (weatherHeader location), [.getForecast location]) ∧
      (∀ days : Int, (forecast.length : Int) ≤ days →
        get_weather env location days =
          (.ok (weatherHeader location ++ String.join (forecast.map weatherDayBlock)),
           [.getForecast location])) := by
  intro env location forecast h hne
  have hemp : forecast.isEmpty = false := by
    simpa [List.isEmpty_iff] using hne
  have hjoin : String.join [] = "" := rfl
  constructor
  · simp [get_weather, tryWrap, h, hemp, pySliceTo, hjoin, String.append_empty]
  · intro days hdays
    have h0 : ¬ days < 0 := by
      intro hlt
      have : (forecast.length : Int) < 0 := lt_of_le_of_lt hdays hlt
      omega
    have htake : forecast.take days.toNat = forecast := by
      apply List.take_of_length_le
      omega
    simp [get_weather, tryWrap, h, hemp, pySliceTo, h0, htake]

/-- Witness for C10: the London stub, `days = 0` and `days = 9`. -/
theorem c10_days_unvalidated_witness :
    get_weather londonEnv "London" 0 =
      (.ok (weatherHeader "London"), [.getForecast "London"]) ∧
    get_weather londonEnv "London" 9 =
      (.ok (weatherHeader "London" ++ String.join (londonForecast.map weatherDayBlock)),
       [.getForecast "London"]) := by
  have h := c10_days_unvalidated londonEnv "London" londonForecast rfl (by decide)
  exact ⟨h.1, h.2 9 (by decide)⟩

/-- C2: for every tool registered in the stdio server and every embedded
travel tool registered in the HTTP server, invoking with an argument
mapping that misses a required parameter of the declared schema (or
supplies a mistyped value) yields `InvalidParams` naming an offending
parameter, and makes zero calls to any provider collaborator. -/
theorem c2_invalid_params_before_any_call :
    (∀ t ∈ stdioTools, ∀ (env : Env) (args : List (String × Val)),
      (∃ ps ∈ t.params, paramViolated args ps) →
      ∃ ps ∈ t.params, paramViolated args ps ∧
        (dispatch stdioTools env ⟨t.name, args⟩ =
           (.error (.invalidParams (missingParamMsg ps.name)), []) ∨
         dispatch stdioTools env ⟨t.name, args⟩ =
           (.error (.invalidParams (badTypeMsg ps.name)), [])))
    ∧ (∀ t ∈ httpTools, ∀ (env : Env) (args : List (String × Val)),
      (∃ ps ∈ t.params, paramViolatedH args ps) →
      ∃ ps ∈ t.params, paramViolatedH args ps ∧
        (dispatchH httpTools env ⟨t.name, args⟩ =
           (.error (.invalidParams (missingParamMsg ps.name)), []) ∨
         dispatchH httpTools env ⟨t.name, args⟩ =
           (.error (.invalidParams (badTypeMsg ps.name)), []))) := by
  constructor
  · intro t ht env args hviol
    have hlook : lookupTool stdioTools t.name = some t := by
      simp only [stdioTools, List.mem_cons, List.not_mem_nil, or_false] at ht
      rcases ht with rfl | rfl | rfl | rfl <;> rfl
    obtain ⟨ps, hmem, hv, hval⟩ := validateArgs_of_violation t.params args hviol
    rcases hval with hval | hval
    · exact ⟨ps, hmem, hv, Or.inl (dispatch_validation_fails _ env t args _ hlook hval)⟩
    · exact ⟨ps, hmem, hv, Or.inr (dispatch_validation_fails _ env t args _ hlook hval)⟩
  · intro t ht env args hviol
    have hlook : lookupToolH httpTools t.name = some t := by
      simp only [httpTools, List.mem_cons, List.not_mem_nil, or_false] at ht
      rcases ht with rfl | rfl | rfl | rfl | rfl <;> rfl
    obtain ⟨ps, hmem, hv, hval⟩ := validateArgsH_of_violation t.params args hviol
    rcases hval with hval | hval
    · exact ⟨ps, hmem, hv, Or.inl (dispatchH_validation_fails _ env t args _ hlook hval)⟩
    · exact ⟨ps, hmem, hv, Or.inr (dispatchH_validation_fails _ env t args _ hlook hval)⟩

/-- Witness for C2: `get_weather` with a missing `location` on the stdio
server, and the HTTP `get_weather` with `days` supplied but `location`
missing, both against call-counting stubs. -/
theorem c2_invalid_params_before_any_call_witness :
    (∃ ps ∈ (⟨"get_weather", [⟨"location", true⟩], tool_get_weather⟩ : ToolSpec).params,
      paramViolated [] ps ∧
      (dispatch stdioTools okEnv ⟨"get_weather", []⟩ =
         (.error (.invalidParams (missingParamMsg ps.name)), []) ∨
       dispatch stdioTools okEnv ⟨"get_weather", []⟩ =
         (.error (.invalidParams (badTypeMsg ps.name)), [])))
    ∧ (∃ ps ∈ (⟨"get_weather",
          [⟨"location", .pstr, true⟩, ⟨"days", .pint, false⟩],
          http_get_weather⟩ : HttpToolSpec).params,
      paramViolatedH [("days", .int 3)] ps ∧
      (dispatchH httpTools okEnv ⟨"get_weather", [("days", .int 3)]⟩ =
         (.error (.invalidParams (missingParamMsg ps.name)), []) ∨
       dispatchH httpTools okEnv ⟨"get_weather", [("days", .int 3)]⟩ =
         (.error (.invalidParams (badTypeMsg ps.name)), []))) :=
  ⟨c2_invalid_params_before_any_call.1
     ⟨"get_weather", [⟨"location", true⟩], tool_get_weather⟩
     (by simp [stdioTools]) okEnv []
     ⟨⟨"location", true⟩, by simp, Or.inl ⟨rfl, rfl⟩⟩,
   c2_invalid_params_before_any_call.2
     ⟨"get_weather", [⟨"location", .pstr, true⟩, ⟨"days", .pint, false⟩], http_get_weather⟩
     (by simp [httpTools]) okEnv [("days", .int 3)]
     ⟨⟨"location", .pstr, true⟩, by simp, Or.inl ⟨rfl, rfl⟩⟩⟩

/-- C6: `check_travel_requirements` on the stdio server, against
collaborators returning fixed visa and safety records, succeeds with a
payload carrying both records unmodified; and the HTTP variant for
United States → Japan renders every field of both stub records verbatim
in its `Success` text. -/
theorem c6_travel_requirements_payload :
    (∀ (o d : String) (visa : Option VisaInfo) (safety : Option SafetyInfo),
       dispatch stdioTools (stubTravelEnv visa safety)
         ⟨"check_travel_requirements",
          [("origin_country", .str o), ("destination_country", .str d)]⟩ =
         (.ok (.jtravel visa safety),
          [.checkVisaV (.str o) (.str d), .safetyAdvisoriesV (.str d)]))
    ∧ check_travel_requirements (stubTravelEnv (some usJapanVisa) (some japanSafety))
        "United States" "Japan" =
        (.ok usJapanTravelOut,
         [.checkVisa "United States" "Japan", .safetyAdvisories "Japan"])
    ∧ pyInStr "Tourist visa TYPE-B1" usJapanTravelOut = true
    ∧ pyInStr "10 business days" usJapanTravelOut = true
    ∧ pyInStr "160 USD" usJapanTravelOut = true
    ∧ pyInStr "90 days" usJapanTravelOut = true
    ∧ pyInStr "Level 1 - Exercise normal precautions" usJapanTravelOut = true
    ∧ pyInStr "Avoid crowded demonstrations" usJapanTravelOut = true
    ∧ pyInStr "Carry your passport at all times" usJapanTravelOut = true
    ∧ pyInStr "2025-08-01" usJapanTravelOut = true := by
  refine ⟨fun o d visa safety => rfl, by decide, by decide, by decide, by decide,
    by decide, by decide, by decide, by decide, by decide⟩

/-- C7: every embedded tool invocation performs exactly the designated
provider call (composite `check_travel_requirements`: the fixed visa-then-
safety sequence, truncated after a raising call), and no call is ever
repeated — the adapter does not retry. -/
theorem c7_single_designated_call :
    (∀ (env : Env) (location : String) (days : Int),
       (get_weather env location days).2 = [.getForecast location])
    ∧ (∀ (env : Env) (destination : String) (activity_type : Option String) (limit : Int),
       (discover_places env destination activity_type limit).2 =
         [.searchPlacesQ (mkPlacesQuery activity_type destination)])
    ∧ (∀ (env : Env) (destination : String) (ct dr : List String) (pr : Option String),
       (find_restaurants env destination ct dr pr).2 =
         [.searchRestaurantsH destination ct pr dr])
    ∧ (∀ (env : Env) (o d dd : String) (rd : Option String) (a : Int) (cc : String),
       (search_flight_options env o d dd rd a cc).2 =
         [.searchFlights (flightCallKwargs o d dd a cc)])
    ∧ (∀ (env : Env) (o d : String),
       (check_travel_requirements env o d).2 =
         match env.check_visa_requirements o d with
         | .error _ => [.checkVisa o d]
         | .ok _ => [.checkVisa o d, .safetyAdvisories d])
    ∧ (∀ (env : Env) (o d : Val),
       (tool_check_travel_requirements
          [("origin_country", o), ("destination_country", d)] env).2 =
         match env.check_visa_requirements_v o d with
         | .error _ => [.checkVisaV o d]
         | .ok _ => [.checkVisaV o d, .safetyAdvisoriesV d]) := by
  refine ⟨?_, ?_, ?_, ?_, ?_, ?_⟩
  · intro env location days
    cases h : env.get_forecast location with
    | error e => simp [get_weather, tryWrap, h]
    | ok f => cases hf : f.isEmpty <;> simp [get_weather, tryWrap, h, hf]
  · intro env destination activity_type limit
    cases h : env.search_places_q (mkPlacesQuery activity_type destination) with
    | error e => simp [discover_places, tryWrap, h]
    | ok ps => cases hp : ps.isEmpty <;> simp [discover_places, tryWrap, h, hp]
  · intro env destination ct dr pr
    cases h : env.search_restaurants_h destination ct pr dr with
    | error e => simp [find_restaurants, tryWrap, h]
    | ok rs => cases hr : rs.isEmpty <;> simp [find_restaurants, tryWrap, h, hr]
  · intro env o d dd rd a cc
    cases h : env.search_flights (flightCallKwargs o d dd a cc) with
    | error e => simp [search_flight_options, tryWrap, h]
    | ok fs => cases hf : fs.isEmpty <;> simp [search_flight_options, tryWrap, h, hf]
  · intro env o d
    cases h : env.check_visa_requirements o d with
    | error e => simp [check_travel_requirements, tryWrap, h]
    | ok v =>
      cases h2 : env.get_safety_advisories d with
      | error e => simp [check_travel_requirements, tryWrap, h, h2]
      | ok s_ => simp [check_travel_requirements, tryWrap, h, h2]
  · intro env o d
    cases h : env.check_visa_requirements_v o d with
    | error e => simp [tool_check_travel_requirements, findArg, h]
    | ok v =>
      cases h2 : env.get_safety_advisories_v d with
      | error e => simp [tool_check_travel_requirements, findArg, h, h2]
      | ok s_ => simp [tool_check_travel_requirements, findArg, h, h2]

/-- C8: the tool registry is a start-up value the serving loop never
mutates — after serving any sequence of requests (successes and failures
alike) the registry is unchanged, and every request's outcome is the
dispatch of that request against the original registry, unaffected by any
other request served before it. -/
theorem c8_registry_never_mutated :
    ∀ (env : Env) (tools : List ToolSpec) (reqs : List Request),
      (serve tools env reqs).2 = tools ∧
      (∀ r : Request, (serve tools env (r :: reqs)).1 =
         dispatch tools env r :: (serve tools env reqs).1) := by
  intro env tools reqs
  constructor
  · induction reqs with
    | nil => rfl
    | cons r rs ih => simpa [serve, serveStep] using ih
  · intro r
    simp [serve, serveStep]

/-- C1: there is no registration-time argument-translation check —
`search_flight_options` is registered although its call-site keyword table
gives no source for the collaborator parameter `date` that
src/PARAMETER_FIXES.py documents as required by `search_flights`; the
mismatch is discovered only at call time, where the invocation fails with
the documented `TypeError` wrapped as `InternalError`. -/
theorem c1_mapping_unchecked_at_registration :
    httpToolNames.contains "search_flight_options" = true
    ∧ searchFlightsRequired.contains "date" = true
    ∧ flightCallKwargNames.contains "date" = false
    ∧ (∀ o d dd : String, ∀ a : Int, ∀ cc : String,
       (flightCallKwargs o d dd a cc).map Prod.fst = flightCallKwargNames)
    ∧ search_flight_options (flightEnv []) "NYC" "LAX" "2024-12-15" none 1 "economy" =
        (.error (.internalError
          "Flight search failed: search_flights() got an unexpected keyword argument departure_date"),
         [.searchFlights (flightCallKwargs "NYC" "LAX" "2024-12-15" 1 "economy")]) :=
  ⟨by decide, by decide, by decide, fun o d dd a cc => rfl, by decide⟩

/-- Counterexample for C3: the weather collaborator raises `boom`; the
invocation is normalized to `Failure InternalError`, but its message is
`Weather lookup failed: boom`, which does not include the registered tool
name `get_weather` — so the message does not name the tool. -/
theorem c3_message_lacks_tool_name :
    get_weather boomWeatherEnv "London" 5 =
      (.error (.internalError "Weather lookup failed: boom"), [.getForecast "London"])
    ∧ pyInStr "get_weather" "Weather lookup failed: boom" = false :=
  ⟨by decide, by decide⟩

/-- C3 (amended): any exception raised by a collaborator during an HTTP
tool invocation is caught and converted to `Failure InternalError` whose
message is a fixed tool-identifying failure prefix followed by the cause
description — no raw collaborator failure escapes unmapped (though the
message carries the prefix, not the registered tool name). -/
theorem c3_collaborator_failures_normalized :
    (∀ (env : Env) (location : String) (days : Int) (e : String),
       env.get_forecast location = .error e →
       get_weather env location days =
         (.error (.internalError ("Weather lookup failed: " ++ e)), [.getForecast location]))
    ∧ (∀ (env : Env) (destination : String) (activity_type : Option String)
         (limit : Int) (e : String),
       env.search_places_q (mkPlacesQuery activity_type destination) = .error e →
       discover_places env destination activity_type limit =
         (.error (.internalError ("Places search failed: " ++ e)),
          [.searchPlacesQ (mkPlacesQuery activity_type destination)]))
    ∧ (∀ (env : Env) (destination : String) (ct dr : List String)
         (pr : Option String) (e : String),
       env.search_restaurants_h destination ct pr dr = .error e →
       find_restaurants env destination ct dr pr =
         (.error (.internalError ("Restaurant search failed: " ++ e)),
          [.searchRestaurantsH destination ct pr dr]))
    ∧ (∀ (env : Env) (o d dd : String) (rd : Option String) (a : Int)
         (cc : String) (e : String),
       env.search_flights (flightCallKwargs o d dd a cc) = .error e →
       search_flight_options env o d dd rd a cc =
         (.error (.internalError ("Flight search failed: " ++ e)),
          [.searchFlights (flightCallKwargs o d dd a cc)]))
    ∧ (∀ (env : Env) (o d : String) (e : String),
       env.check_visa_requirements o d = .error e →
       check_travel_requirements env o d =
         (.error (.internalError ("Travel requirements check failed: " ++ e)),
          [.checkVisa o d]))
    ∧ (∀ (env : Env) (o d : String) (v : Option VisaInfo) (e : String),
       env.check_visa_requirements o d = .ok v →
       env.get_safety_advisories d = .error e →
       check_travel_requirements env o d =
         (.error (.internalError ("Travel requirements check failed: " ++ e)),
          [.checkVisa o d, .safetyAdvisories d])) := by
  refine ⟨?_, ?_, ?_, ?_, ?_, ?_⟩
  · intro env location days e h
    simp [get_weather, tryWrap, h]
  · intro env destination activity_type limit e h
    simp [discover_places, tryWrap, h]
  · intro env destination ct dr pr e h
    simp [find_restaurants, tryWrap, h]
  · intro env o d dd rd a cc e h
    simp [search_flight_options, tryWrap, h]
  · intro env o d e h
    simp [check_travel_requirements, tryWrap, h]
  · intro env o d v e h h2
    simp [check_travel_requirements, tryWrap, h, h2]

/-- Witness for the amended C3: every HTTP tool against raising stubs. -/
theorem c3_collaborator_failures_normalized_witness :
    get_weather baseEnv "Paris" 5 =
      (.error (.internalError "Weather lookup failed: unstubbed collaborator"),
       [.getForecast "Paris"])
    ∧ discover_places baseEnv "Paris" none 10 =
      (.error (.internalError "Places search failed: unstubbed collaborator"),
       [.searchPlacesQ "things to do in Paris"])
    ∧ find_restaurants baseEnv "Paris" [] [] none =
      (.error (.internalError "Restaurant search failed: unstubbed collaborator"),
       [.searchRestaurantsH "Paris" [] none []])
    ∧ search_flight_options baseEnv "NYC" "LAX" "2024-12-15" none 1 "economy" =
      (.error (.internalError "Flight search failed: unstubbed collaborator"),
       [.searchFlights (flightCallKwargs "NYC" "LAX" "2024-12-15" 1 "economy")])
    ∧ check_travel_requirements baseEnv "United States" "Japan" =
      (.error (.internalError "Travel requirements check failed: unstubbed collaborator"),
       [.checkVisa "United States" "Japan"])
    ∧ check_travel_requirements visaOkSafetyBoomEnv "United States" "Japan" =
      (.error (.internalError "Travel requirements check failed: unstubbed collaborator"),
       [.checkVisa "United States" "Japan", .safetyAdvisories "Japan"]) := by
  refine ⟨?_, ?_, ?_, ?_, ?_, ?_⟩
  · exact (c3_collaborator_failures_normalized.1 baseEnv "Paris" 5 _ rfl).trans (by decide)
  · exact (c3_collaborator_failures_normalized.2.1 baseEnv "Paris" none 10 _ rfl).trans
      (by decide)
  · exact (c3_collaborator_failures_normalized.2.2.1 baseEnv "Paris" [] [] none _ rfl).trans
      (by decide)
  · exact (c3_collaborator_failures_normalized.2.2.2.1 baseEnv "NYC" "LAX" "2024-12-15"
      none 1 "economy" _ rfl).trans (by decide)
  · exact (c3_collaborator_failures_normalized.2.2.2.2.1 baseEnv "United States" "Japan"
      _ rfl).trans (by decide)
  · exact (c3_collaborator_failures_normalized.2.2.2.2.2 visaOkSafetyBoomEnv
      "United States" "Japan" none _ rfl rfl).trans (by decide)

/-- C9: the `search_flight_options` call site forwards exactly the five
keywords origin/destination/departure_date/adults/cabin_class — never
`return_date` — to the flight collaborator; the provider-call trace is
independent of `return_date`, and the whole invocation outcome depends on
`return_date` only through its (Python) truthiness, which merely selects
the Round Trip / One Way label. -/
theorem c9_return_date_never_forwarded :
    (∀ o d dd : String, ∀ a : Int, ∀ cc : String,
       (flightCallKwargs o d dd a cc).map Prod.fst = flightCallKwargNames
       ∧ ((flightCallKwargs o d dd a cc).map Prod.fst).contains "return_date" = false)
    ∧ (∀ (env : Env) (o d dd : String) (rd rd2 : Option String) (a : Int) (cc : String),
       (search_flight_options env o d dd rd a cc).2 =
         (search_flight_options env o d dd rd2 a cc).2)
    ∧ (∀ (env : Env) (o d dd : String) (rd rd2 : Option String) (a : Int) (cc : String),
       pyTruthyOptStr rd = pyTruthyOptStr rd2 →
       search_flight_options env o d dd rd a cc =
         search_flight_options env o d dd rd2 a cc) := by
  refine ⟨?_, ?_, ?_⟩
  · intro o d dd a cc
    refine ⟨rfl, ?_⟩
    show flightCallKwargNames.contains "return_date" = false
    decide
  · intro env o d dd rd rd2 a cc
    cases h : env.search_flights (flightCallKwargs o d dd a cc) with
    | error e => simp [search_flight_options, tryWrap, h]
    | ok fs => cases hf : fs.isEmpty <;> simp [search_flight_options, tryWrap, h, hf]
  · intro env o d dd rd rd2 a cc hrd
    simp only [search_flight_options, hrd]

/-- Witness for C9: two distinct concrete return dates give identical
invocations. -/
theorem c9_return_date_never_forwarded_witness :
    search_flight_options (flightEnv []) "NYC" "LAX" "2024-12-15"
        (some "2024-12-20") 1 "economy" =
      search_flight_options (flightEnv []) "NYC" "LAX" "2024-12-15"
        (some "2024-12-25") 1 "economy" :=
  c9_return_date_never_forwarded.2.2 (flightEnv []) "NYC" "LAX" "2024-12-15"
    (some "2024-12-20") (some "2024-12-25") 1 "economy" rfl

end MCPTravel
